import Mathlib

/-!
Verification of the status/result abstraction (`include/libimp/result.h`) and of the
allocator boundary (`src/libpmr/memory_resource.cpp`) of the cpp-ipc repository.

The payload policies (`detail_result::generic_traits`, `default_traits<void>`,
`default_traits<T, is_integral>`, `default_traits<T, is_pointer>`) and the `result`
wrapper are embedded shallowly: storage is the tuple `(T, error_code)`, the
`init_code` overloads become one Lean function per initializer shape, and the
accessors become pure reads.  The integral policy is embedded at the library's own
default payload type `std::uint64_t` (`result_code`), with machine integers as
naturals and casts taken modulo `2 ^ 64`.
-/

/-- Modelled from the spec: `libimp/error.h` is not among the shown sources.  The
underlying error-code type `error_code_t` is a 64-bit unsigned integer; error codes are
represented as naturals below `2 ^ 64`, the no-error sentinel being falsy (zero). -/
abbrev error_code_t : Type := Nat

/-- Modelled from the spec: the falsy "no error" sentinel of `error_code`; a
default-constructed `error_code` (written `{}` in the source) holds this value. -/
def no_error : error_code_t := 0

/-- Modelled from the spec: `error_number_limit`, the dedicated "uninitialized"
sentinel, a reserved value distinct from the no-error sentinel `0`.  The spec does not
fix its numeric value, only that it is reserved; it is modelled as a nonzero constant. -/
def error_number_limit : error_code_t := 2 ^ 63

/-- Modelled from the spec: conversion of an integral value to `error_code_t`
(the `static_cast<error_code_t>` in the integral policy), wrapping modulo `2 ^ 64`. -/
def castToErrorCode (v : Nat) : error_code_t := v % 2 ^ 64

/-- Modelled from the spec: the error code built from the literal `-1` in the pointer
policy (`code = {nullptr, -1}`): `-1` converted to the unsigned `error_code_t`. -/
def minus_one_code : error_code_t := 2 ^ 64 - 1

/-- `generic_traits<T>::storage_t`: `std::tuple<T, error_code>`. -/
abbrev storage_t (T : Type) : Type := T × error_code_t

/-- `generic_traits<T>::init_code(code)`: default initialization stores the zero value
of `T` (written `0` in the source; passed here as `zeroT`) and `error_number_limit`. -/
def generic_init_default {T : Type} (zeroT : T) : storage_t T :=
  (zeroT, error_number_limit)

/-- `generic_traits<T>::init_code(code, value, ec)`: stores both verbatim. -/
def generic_init_value_ec {T : Type} (v : T) (ec : error_code_t) : storage_t T :=
  (v, ec)

/-- `generic_traits<T>::init_code(code, value)`: stores the value together with a
default-constructed (no-error) `error_code`. -/
def generic_init_value {T : Type} (v : T) : storage_t T :=
  (v, no_error)

/-- `generic_traits<T>::init_code(code, ec)`: stores the value-initialized `T` (written
`{}` in the source; passed here as `zeroT`) together with the given error code. -/
def generic_init_ec {T : Type} (zeroT : T) (ec : error_code_t) : storage_t T :=
  (zeroT, ec)

/-- `generic_traits<T>::get_value`: the first tuple element. -/
def generic_get_value {T : Type} (s : storage_t T) : T := s.1

/-- `generic_traits<T>::get_ok`: `!std::get<1>(code)`, i.e. the stored error code is
falsy. -/
def generic_get_ok {T : Type} (s : storage_t T) : Bool := s.2 == no_error

/-- `generic_traits<T>::get_error`: the second tuple element. -/
def generic_get_error {T : Type} (s : storage_t T) : error_code_t := s.2

/-- `default_traits<void>::storage_t` is just `error_code`; its default
`init_code(code)` stores `error_number_limit`. -/
def void_init_default : error_code_t := error_number_limit

/-- `default_traits<void>::init_code(code, ec)`: stores the given code verbatim. -/
def void_init_ec (ec : error_code_t) : error_code_t := ec

/-- `default_traits<void>::get_ok`: `!code`. -/
def void_get_ok (code : error_code_t) : Bool := code == no_error

/-- `default_traits<void>::get_error`: the stored code. -/
def void_get_error (code : error_code_t) : error_code_t := code

/-- `default_traits<T, is_integral>::default_value()`: zero. -/
def integral_default_value : Nat := 0

/-- `default_traits<T, is_integral>::init_code(code, value, ok)`: stores the value and
`static_cast<error_code_t>(ok ? 0 : ((value == default_value()) ? error_number_limit
: value))`, at the library's default integral payload `std::uint64_t`. -/
def integral_init_value_ok (v : Nat) (ok : Bool) : storage_t Nat :=
  (v, if ok then no_error
      else if v = integral_default_value then error_number_limit
      else castToErrorCode v)

/-- Pointer payload values: `none` models `nullptr`, `some a` a pointer with address
`a`. -/
abbrev PtrT : Type := Option Nat

/-- `default_traits<T, is_pointer>::default_value()`: `nullptr`. -/
def pointer_default_value : PtrT := none

/-- `default_traits<T, is_pointer>::init_code(code, nullptr, ec)`: stores
`{nullptr, ec}` verbatim. -/
def pointer_init_null_ec (ec : error_code_t) : storage_t PtrT :=
  (none, ec)

/-- `default_traits<T, is_pointer>::init_code(code, nullptr)`: stores
`{nullptr, -1}`. -/
def pointer_init_null : storage_t PtrT :=
  (none, minus_one_code)

/-- The `result<T, TypeTraits>` wrapper: owns one `storage_t` value (`code_`). -/
structure result (T : Type) where
  code_ : storage_t T

/-- `result::value()`: delegates to the traits `get_value` (the generic one for every
non-void policy, since the integral and pointer policies inherit it). -/
def result.value {T : Type} (r : result T) : T := generic_get_value r.code_

/-- `result::ok()`: delegates to the traits `get_ok`. -/
def result.ok {T : Type} (r : result T) : Bool := generic_get_ok r.code_

/-- `result::error()`: delegates to the traits `get_error`. -/
def result.error {T : Type} (r : result T) : error_code_t := generic_get_error r.code_

/-- `result::operator bool()`: `ok()`. -/
def result.toBool {T : Type} (r : result T) : Bool := r.ok

/-- `result::operator *()`: `value()`. -/
def result.deref {T : Type} (r : result T) : T := r.value

/-- `operator==(result, result)`: `lhs.code_ == rhs.code_`, the componentwise tuple
comparison. -/
def result.eqOp {T : Type} [DecidableEq T] (a b : result T) : Bool :=
  decide (a.code_ = b.code_)

/-- `operator!=(result, result)`: `!(lhs == rhs)`. -/
def result.neOp {T : Type} [DecidableEq T] (a b : result T) : Bool :=
  !(result.eqOp a b)

/-- Constructor of `result<T>` from the generic value-only shape. -/
def result.mkValue {T : Type} (v : T) : result T := ⟨generic_init_value v⟩

/-- Constructor of `result<T>` from the generic value-and-code shape. -/
def result.mkValueEc {T : Type} (v : T) (ec : error_code_t) : result T :=
  ⟨generic_init_value_ec v ec⟩

/-- Constructor of `result<T>` from the generic code-only shape. -/
def result.mkEc {T : Type} (zeroT : T) (ec : error_code_t) : result T :=
  ⟨generic_init_ec zeroT ec⟩

/-- Constructor of `result<T>` from the generic default (argument-less) shape. -/
def result.mkDefault {T : Type} (zeroT : T) : result T := ⟨generic_init_default zeroT⟩

/-- Constructor of the integral `result` from the `(value, ok)` shape. -/
def result.mkValueOk (v : Nat) (ok : Bool) : result Nat := ⟨integral_init_value_ok v ok⟩

/-- Constructor of the pointer `result` from the `(nullptr)` shape. -/
def result.mkNull : result PtrT := ⟨pointer_init_null⟩

/-- Constructor of the pointer `result` from the `(nullptr, ec)` shape. -/
def result.mkNullEc (ec : error_code_t) : result PtrT := ⟨pointer_init_null_ec ec⟩

/-- The `result<void, TypeTraits>` specialization: storage is a bare `error_code`. -/
structure result_void where
  code_ : error_code_t

/-- `result<void>::ok()`. -/
def result_void.ok (r : result_void) : Bool := void_get_ok r.code_

/-- `result<void>::error()`. -/
def result_void.error (r : result_void) : error_code_t := void_get_error r.code_

/-- `result<void>::operator bool()`. -/
def result_void.toBool (r : result_void) : Bool := r.ok

/-- `operator==` on `result<void>`: comparison of the stored codes. -/
def result_void.eqOp (a b : result_void) : Bool := a.code_ == b.code_

/-- `operator!=` on `result<void>`. -/
def result_void.neOp (a b : result_void) : Bool := !(a.eqOp b)

/-- Constructor of `result<void>` from the default shape. -/
def result_void.mkDefault : result_void := ⟨void_init_default⟩

/-- Constructor of `result<void>` from an explicit error code. -/
def result_void.mkEc (ec : error_code_t) : result_void := ⟨void_init_ec ec⟩

/-- Claim C1: for the integral payload policy, constructing from `(0, false)` stores the
uninitialized sentinel as the error code, never the zero value reinterpreted as an
error code: `ok()` is false and `error()` equals `error_number_limit`, which is distinct
from the no-error (zero) code. -/
theorem integral_zero_false_stores_uninitialized :
    (result.mkValueOk 0 false).ok = false ∧
    (result.mkValueOk 0 false).error = error_number_limit ∧
    error_number_limit ≠ no_error := by
  refine ⟨by decide, rfl, by decide⟩

/-- Claim C2: for every result of every payload policy, `ok()` holds iff `error()`
equals the no-error sentinel, and the implicit boolean conversion agrees with `ok()`:
success is read off the stored error code, never tracked independently. -/
theorem ok_iff_error_is_no_error :
    (∀ (T : Type) (r : result T),
        r.ok = (r.error == no_error) ∧ r.toBool = r.ok) ∧
    (∀ r : result_void,
        r.ok = (r.error == no_error) ∧ r.toBool = r.ok) :=
  ⟨fun _ _ => ⟨rfl, rfl⟩, fun _ => ⟨rfl, rfl⟩⟩

/-- Claim C3: for the integral policy, `(v, true)` yields a success with the no-error
code for every value; and for every nonzero representable `v`, `(v, false)` yields a
failure whose error code is `v` reinterpreted as an error code and whose stored value
is still `v`. -/
theorem integral_value_ok_shapes :
    (∀ v : Nat,
        (result.mkValueOk v true).ok = true ∧
        (result.mkValueOk v true).error = no_error) ∧
    (∀ v : Nat, v < 2 ^ 64 → v ≠ 0 →
        (result.mkValueOk v false).ok = false ∧
        (result.mkValueOk v false).error = v ∧
        (result.mkValueOk v false).value = v) := by
  constructor
  · intro v
    exact ⟨rfl, rfl⟩
  · intro v hv hnz
    have hd : v ≠ integral_default_value := hnz
    have herr : (result.mkValueOk v false).error = v := by
      simp only [result.mkValueOk, integral_init_value_ok, result.error, generic_get_error,
        if_neg hd, castToErrorCode]
      exact Nat.mod_eq_of_lt hv
    refine ⟨?_, herr, rfl⟩
    simp only [result.ok, generic_get_ok, no_error]
    have : (result.mkValueOk v false).code_.2 = v := herr
    rw [this]
    exact beq_false_of_ne hnz

/-- Witness for claim C3 at the concrete input `v = 5`. -/
theorem integral_value_ok_shapes_witness :
    (result.mkValueOk 5 false).ok = false ∧
    (result.mkValueOk 5 false).error = 5 ∧
    (result.mkValueOk 5 false).value = 5 :=
  integral_value_ok_shapes.2 5 (by decide) (by decide)

/-- Claim C4: `result<void>` default construction stores the uninitialized sentinel, so
`ok()` is false; construction from an explicit code stores it verbatim, so `ok()`
reflects whether the code is the no-error sentinel, and in particular the no-error code
yields `ok() = true`. -/
theorem void_default_and_explicit_code :
    result_void.mkDefault.ok = false ∧
    (∀ ec : error_code_t,
        (result_void.mkEc ec).error = ec ∧
        (result_void.mkEc ec).ok = (ec == no_error)) ∧
    (result_void.mkEc no_error).ok = true := by
  refine ⟨by decide, fun ec => ⟨rfl, rfl⟩, by decide⟩

/-- Claim C5: for the pointer policy, the null-only shape stores the `-1` sentinel code
(so the result is a failure), while the `(null, code)` shape stores the supplied code
verbatim. -/
theorem pointer_null_shapes :
    result.mkNull.error = minus_one_code ∧
    result.mkNull.ok = false ∧
    (∀ ec : error_code_t, (result.mkNullEc ec).error = ec) := by
  refine ⟨rfl, by decide, fun ec => rfl⟩

/-- Claim C6: for the generic policy, the value-only shape stores the value with the
no-error code, a success; the code-only shape stores the zero value of `T` with the
supplied code. -/
theorem generic_value_and_code_shapes :
    ∀ (T : Type) (zeroT v : T) (ec : error_code_t),
      (result.mkValue v).value = v ∧
      (result.mkValue v).error = no_error ∧
      (result.mkValue v).ok = true ∧
      (result.mkEc zeroT ec).value = zeroT ∧
      (result.mkEc zeroT ec).error = ec :=
  fun _ _ _ _ => ⟨rfl, rfl, rfl, rfl, rfl⟩

/-- Claim C7: two results of the same type compare equal iff their storage compares
equal field by field (value and error code, where applicable: for `result<void>` the
storage is the bare error code); `operator!=` is the negation of `operator==`; and at
the integral policy, `(5, true)` equals `(5, true)` but differs from `(5, false)`. -/
theorem result_equality_is_storage_equality :
    (∀ (T : Type) (_inst : DecidableEq T) (a b : result T),
        (result.eqOp a b = true ↔
          (generic_get_value a.code_ = generic_get_value b.code_ ∧
           generic_get_error a.code_ = generic_get_error b.code_)) ∧
        result.neOp a b = !(result.eqOp a b)) ∧
    (∀ a b : result_void,
        (result_void.eqOp a b = true ↔
          void_get_error a.code_ = void_get_error b.code_) ∧
        result_void.neOp a b = !(result_void.eqOp a b)) ∧
    result.eqOp (result.mkValueOk 5 true) (result.mkValueOk 5 true) = true ∧
    result.neOp (result.mkValueOk 5 true) (result.mkValueOk 5 false) = true := by
  refine ⟨fun T _ a b => ⟨?_, rfl⟩, fun a b => ⟨?_, rfl⟩, by decide, by decide⟩
  · simp only [result.eqOp, decide_eq_true_eq, generic_get_value, generic_get_error]
    exact Prod.ext_iff
  · simp only [result_void.eqOp, void_get_error]
    exact beq_iff_eq

/-- Diagnostic messages emitted through the logging facility by the allocator
boundary. -/
inductive LogMsg where
  | invalidArgs (bytes alignment : Nat)
  | allocFailure (bytes alignment : Nat)
  | freeFailure (bytes alignment : Nat)
deriving DecidableEq

/-- `verify_args(log, bytes, alignment)` from `memory_resource.cpp`: false when
`bytes == 0` (silently), false with a logged error when the alignment is zero or not a
power of two (`alignment & (alignment - 1) != 0`), true otherwise.  Returns the verdict
together with the messages logged. -/
def verify_args (bytes alignment : Nat) : Bool × List LogMsg :=
  if bytes = 0 then (false, [])
  else if alignment = 0 ∨ alignment &&& (alignment - 1) ≠ 0 then
    (false, [LogMsg.invalidArgs bytes alignment])
  else (true, [])

/-- Outcome of the external `std::aligned_alloc` call: a non-null pointer, a null
return, or a thrown exception (caught at the boundary). -/
inductive SysCall where
  | ptr (p : Nat)
  | nullret
  | exc

/-- The external collaborators of `new_delete_resource`: `alignof(std::max_align_t)`,
`std::malloc`, and `std::aligned_alloc`. -/
structure AllocEnv where
  maxAlign : Nat
  mal : Nat → Option Nat
  aal : Nat → Nat → SysCall

/-- `new_delete_resource::allocate(bytes, alignment)` (the C++17 path): null on
argument rejection, `std::malloc` for small alignments, otherwise `std::aligned_alloc`
with exceptions converted to a null return plus a logged error.  Returns the pointer
(or null) together with the messages logged. -/
def allocate (env : AllocEnv) (bytes alignment : Nat) : Option Nat × List LogMsg :=
  let v := verify_args bytes alignment
  if v.1 = false then (none, v.2)
  else if alignment ≤ env.maxAlign then (env.mal bytes, v.2)
  else
    match env.aal alignment bytes with
    | SysCall.ptr p => (some p, v.2)
    | SysCall.nullret => (none, v.2)
    | SysCall.exc => (none, v.2 ++ [LogMsg.allocFailure bytes alignment])

/-- `new_delete_resource::deallocate(p, bytes, alignment)` (the C++17 path): a no-op on
a null pointer or rejected arguments, otherwise `std::free` (whose exceptions, if any,
are caught and logged; `freeRaises` records that external outcome).  Returns whether
the storage was released together with the messages logged. -/
def deallocate (freeRaises : Bool) (p : Option Nat) (bytes alignment : Nat) :
    Bool × List LogMsg :=
  match p with
  | none => (false, [])
  | some _ =>
    let v := verify_args bytes alignment
    if v.1 = false then (false, v.2)
    else (true, v.2 ++ (if freeRaises then [LogMsg.freeFailure bytes alignment] else []))

/-- Spec-side predicate for claim C8: the alignment is a power of two. -/
def is_power_of_two (n : Nat) : Prop := ∃ k : Nat, n = 2 ^ k

/-- A positive number whose bitwise conjunction with its predecessor vanishes is a
power of two: the forward direction of the classic bit trick used by `verify_args`. -/
theorem pow2_of_land_pred_eq_zero :
    ∀ n : Nat, 0 < n → n &&& (n - 1) = 0 → ∃ k : Nat, n = 2 ^ k := by
  intro n
  induction n using Nat.strong_induction_on with
  | _ n ih =>
    intro hn h0
    rcases Nat.mod_two_eq_zero_or_one n with he | ho
    · have hm : 0 < n / 2 := by omega
      have hm1 : (n - 1) / 2 = n / 2 - 1 := by omega
      have hdiv : (n / 2) &&& (n / 2 - 1) = 0 := by
        rw [← hm1, ← Nat.and_div_two, h0]
      obtain ⟨k, hk⟩ := ih (n / 2) (by omega) hm hdiv
      refine ⟨k + 1, ?_⟩
      rw [Nat.pow_succ]
      omega
    · by_cases h1 : n = 1
      · exact ⟨0, by rw [h1, Nat.pow_zero]⟩
      · exfalso
        have h3 : 3 ≤ n := by omega
        have hm1 : (n - 1) / 2 = n / 2 := by omega
        have hd : (n &&& (n - 1)) / 2 = n / 2 := by
          rw [Nat.and_div_two, hm1, Nat.and_self]
        rw [h0] at hd
        omega

/-- The bit trick of `verify_args` is exactly the power-of-two test: for positive `n`,
`n & (n - 1) == 0` iff `n` is a power of two. -/
theorem land_pred_eq_zero_iff_pow2 (n : Nat) (hn : 0 < n) :
    n &&& (n - 1) = 0 ↔ is_power_of_two n := by
  constructor
  · exact pow2_of_land_pred_eq_zero n hn
  · rintro ⟨k, rfl⟩
    rw [Nat.and_pow_two_sub_one_eq_mod, Nat.mod_self]

/-- Invalid arguments make `verify_args` reject: zero size, or an alignment that is not
a power of two (zero included). -/
theorem verify_args_false_of_invalid (bytes alignment : Nat)
    (h : bytes = 0 ∨ ¬ is_power_of_two alignment) :
    (verify_args bytes alignment).1 = false := by
  by_cases hb : bytes = 0
  · simp [verify_args, hb]
  · have hpow : ¬ is_power_of_two alignment := by
      rcases h with h | h
      · exact absurd h hb
      · exact h
    have hcond : alignment = 0 ∨ alignment &&& (alignment - 1) ≠ 0 := by
      rcases Nat.eq_zero_or_pos alignment with ha | ha
      · exact Or.inl ha
      · refine Or.inr fun hz => hpow ?_
        exact (land_pred_eq_zero_iff_pow2 alignment ha).mp hz
    unfold verify_args
    rw [if_neg hb, if_pos hcond]

/-- Claim C8: the allocator boundary rejects invalid arguments without raising a fault
(both entry points are total functions here, mirroring `noexcept`): `allocate` returns
null whenever `bytes == 0` or the alignment is not a power of two (zero included), and
`deallocate` releases nothing on the same invalid arguments, nor on a null pointer. -/
theorem allocator_rejects_invalid_args (env : AllocEnv) (freeRaises : Bool)
    (bytes alignment : Nat)
    (h : bytes = 0 ∨ ¬ is_power_of_two alignment) :
    (allocate env bytes alignment).1 = none ∧
    (∀ p : Nat, (deallocate freeRaises (some p) bytes alignment).1 = false) ∧
    (∀ b a : Nat, deallocate freeRaises none b a = (false, [])) := by
  have hv := verify_args_false_of_invalid bytes alignment h
  refine ⟨?_, ?_, fun b a => rfl⟩
  · simp [allocate, hv]
  · intro p
    simp [deallocate, hv]

/-- A sample environment for evaluating the allocator at concrete inputs: the external
malloc and aligned-alloc routines always return the pointer 4096. -/
def sampleEnv : AllocEnv := ⟨16, fun _ => some 4096, fun _ _ => SysCall.ptr 4096⟩

/-- Witness for claim C8 at the concrete inputs `(bytes, alignment) = (0, 8)` and
`(16, 3)`. -/
theorem allocator_rejects_invalid_args_witness :
    (allocate sampleEnv 0 8).1 = none ∧
    (allocate sampleEnv 16 3).1 = none ∧
    (deallocate false (some 4096) 16 3).1 = false := by
  have h3 : ¬ is_power_of_two 3 := fun h =>
    absurd ((land_pred_eq_zero_iff_pow2 3 (by decide)).mpr h) (by decide)
  exact ⟨(allocator_rejects_invalid_args sampleEnv false 0 8 (Or.inl rfl)).1,
         (allocator_rejects_invalid_args sampleEnv false 16 3 (Or.inr h3)).1,
         (allocator_rejects_invalid_args sampleEnv false 16 3 (Or.inr h3)).2.1 4096⟩

/-- Claim C9: for every alignment, `allocate(0, alignment)` returns null and emits no
diagnostic message: the zero-size rejection in `verify_args` returns before the logging
branch is reached. -/
theorem allocate_zero_bytes_silent_null (env : AllocEnv) (alignment : Nat) :
    allocate env 0 alignment = (none, []) := rfl

/-- Claim C10: for the pointer policy, the `(null, ec)` shape with the falsy no-error
code yields a success even though the stored pointer is null: the implicit `-1` failure
sentinel applies only to the value-only null shape. -/
theorem pointer_null_with_falsy_code_is_ok :
    (result.mkNullEc no_error).ok = true ∧
    (result.mkNullEc no_error).value = pointer_default_value ∧
    (result.mkNullEc no_error).error = no_error :=
  ⟨rfl, rfl, rfl⟩
